import Mathlib

/-!
Verification of the hush advisory pipeline's decision-and-temporal-state core.

Shallow embedding of:
- `advisory_pipeline/decisioning/rules.py` (Decision, rule variants, default chain)
- `advisory_pipeline/decisioning/rule_engine.py` (RuleEngine.decide / decide_batch)
- `advisory_pipeline/decisioning/state_machine.py` (AdvisoryStateMachine)
- `advisory_pipeline/storage/scd2_manager.py` (SCD2Manager over an in-memory row list)

Python dictionaries of scalar values are embedded as structures with `Option`
fields (`none` = key absent / value None); Python truthiness of optional strings
is `some s` with `s` nonempty.  Timestamps (`datetime.utcnow()`) are passed as
explicit `Nat` parameters.  Machine evaluation is total; exceptional control
flow (the engine's no-match `ValueError`, the attribute error in
`describe_transition`) is embedded with `Except` / `Option`.
-/

deriving instance DecidableEq for Except

namespace Hush

/-- Scalar Python value as it appears in a Decision's evidence mapping. -/
inductive PyVal
  | vNone
  | vBool (b : Bool)
  | vStr (s : String)
  | vInt (n : Int)
deriving DecidableEq, Repr

/-- Embed an optional string the way Python stores it in an evidence dict
(absent/None keys become None). -/
def optV : Option String → PyVal
  | some s => PyVal.vStr s
  | none => PyVal.vNone

/-- Python truthiness of an optional string: None and the empty string are falsy. -/
def truthyOpt : Option String → Bool
  | some s => !(s == "")
  | none => false

/-- Value found under the contributing_sources key of an advisory record.
The branch structure of `Rule._extract_sources` depends only on whether the
value is a list, or a string together with the outcome of `json.loads` on it
(a list, some other JSON value, or a parse error); the embedding records that
outcome with the raw string. -/
inductive SrcVal
  | absent
  | pyList (xs : List String)
  | strJsonList (raw : String) (xs : List String)
  | strJsonOther (raw : String)
  | strInvalid (raw : String)
deriving DecidableEq, Repr

/-- Enriched advisory record consumed by the rules (string-keyed mapping;
fields are the keys the default rules read, `none`/`false`/defaults when absent). -/
structure Record where
  advisory_id : Option String := none
  override_status : Option String := none
  override_reason : Option String := none
  csv_updated_at : Option String := none
  is_rejected : Bool := false
  nvd_rejection_status : Option String := none
  fix_available : Bool := false
  fixed_version : Option String := none
  osv_fixed_version : Option String := none
  has_signal : Bool := false
  source_count : Int := 0
  cvss_score : PyVal := PyVal.vNone
  contributing_sources : SrcVal := SrcVal.absent
deriving DecidableEq, Repr

/-- Result of applying a rule to an advisory (rules.py `Decision` dataclass). -/
structure Decision where
  state : String
  state_type : String
  fixed_version : Option String
  confidence : String
  reason_code : String
  evidence : List (String × PyVal)
  explanation : String
  contributing_sources : List String
  dissenting_sources : List String
deriving DecidableEq, Repr

/-- Embed `Rule._extract_sources`: a plain list is kept, a string is parsed as
JSON (parse errors and non-list JSON give []), anything else gives []. -/
def extract_sources (d : Record) : List String :=
  match d.contributing_sources with
  | SrcVal.absent => []
  | SrcVal.pyList xs => xs
  | SrcVal.strJsonList _ xs => xs
  | SrcVal.strJsonOther _ => []
  | SrcVal.strInvalid _ => []

/-- Embed `CsvOverrideRule._build_explanation`. -/
def CsvOverrideRule.build_explanation (d : Record) : String :=
  let reason := d.override_reason.getD "Internal policy"
  let updated_str :=
    match d.csv_updated_at with
    | some s => if s == "" then "unknown date" else s
    | none => "unknown date"
  "Marked as not applicable by Echo security team. Reason: " ++ reason ++
    ". Updated: " ++ updated_str ++ "."

/-- Embed `CsvOverrideRule.evaluate` (R0, priority 0, CSV_OVERRIDE). -/
def CsvOverrideRule.evaluate (d : Record) : Option Decision :=
  if d.override_status == some "not_applicable" then
    some
      { state := "not_applicable"
        state_type := "final"
        fixed_version := none
        confidence := "high"
        reason_code := "CSV_OVERRIDE"
        evidence :=
          [("csv_override", optV d.override_status),
           ("csv_reason", optV d.override_reason),
           ("csv_updated_at",
             if truthyOpt d.csv_updated_at then optV d.csv_updated_at else PyVal.vNone)]
        explanation := CsvOverrideRule.build_explanation d
        contributing_sources := ["echo_csv"]
        dissenting_sources := [] }
  else none

/-- Embed `NvdRejectedRule.evaluate` (R1, priority 1, NVD_REJECTED). -/
def NvdRejectedRule.evaluate (d : Record) : Option Decision :=
  if d.is_rejected then
    some
      { state := "not_applicable"
        state_type := "final"
        fixed_version := none
        confidence := "high"
        reason_code := "NVD_REJECTED"
        evidence :=
          [("is_rejected", PyVal.vBool true),
           ("nvd_rejection_status", optV d.nvd_rejection_status)]
        explanation := "This CVE has been rejected by the National Vulnerability Database."
        contributing_sources := ["nvd"]
        dissenting_sources := [] }
  else none

/-- Embed `UpstreamFixRule.evaluate` (R2, priority 2, UPSTREAM_FIX). -/
def UpstreamFixRule.evaluate (d : Record) : Option Decision :=
  if d.fix_available && truthyOpt d.fixed_version then
    some
      { state := "fixed"
        state_type := "final"
        fixed_version := d.fixed_version
        confidence := "high"
        reason_code := "UPSTREAM_FIX"
        evidence :=
          [("fix_available", PyVal.vBool true),
           ("fixed_version", optV d.fixed_version),
           ("osv_fixed_version", optV d.osv_fixed_version)]
        explanation :=
          "Fixed in version " ++ d.fixed_version.getD "" ++ ". Fix available from upstream."
        contributing_sources := extract_sources d
        dissenting_sources := [] }
  else none

/-- Embed `UnderInvestigationRule.evaluate` (R5, priority 5, NEW_CVE). -/
def UnderInvestigationRule.evaluate (d : Record) : Option Decision :=
  if !d.has_signal then
    some
      { state := "under_investigation"
        state_type := "non_final"
        fixed_version := none
        confidence := "low"
        reason_code := "NEW_CVE"
        evidence :=
          [("has_signal", PyVal.vBool false),
           ("source_count", PyVal.vInt d.source_count)]
        explanation := "Recently published CVE under analysis. Awaiting upstream signals."
        contributing_sources := extract_sources d
        dissenting_sources := [] }
  else none

/-- Embed `PendingUpstreamRule.evaluate` (R6, priority 6, AWAITING_FIX, catch-all). -/
def PendingUpstreamRule.evaluate (d : Record) : Option Decision :=
  let sources := extract_sources d
  some
    { state := "pending_upstream"
      state_type := "non_final"
      fixed_version := none
      confidence := "medium"
      reason_code := "AWAITING_FIX"
      evidence :=
        [("fix_available", PyVal.vBool false),
         ("cvss_score", d.cvss_score),
         ("source_count", PyVal.vInt d.source_count)]
      explanation :=
        "No fix currently available upstream. Monitoring for updates. Sources consulted: " ++
          (if sources.isEmpty then "none" else String.intercalate ", " sources) ++ "."
      contributing_sources := sources
      dissenting_sources := [] }

/-- A rule in the chain: id, priority, reason code and evaluation function
(the Rule base class fields together with the subclass evaluate method). -/
structure RuleSpec where
  rule_id : String
  priority : Nat
  reason_code : String
  evaluate : Record → Option Decision

def csvOverrideRule : RuleSpec :=
  { rule_id := "R0", priority := 0, reason_code := "CSV_OVERRIDE",
    evaluate := CsvOverrideRule.evaluate }

def nvdRejectedRule : RuleSpec :=
  { rule_id := "R1", priority := 1, reason_code := "NVD_REJECTED",
    evaluate := NvdRejectedRule.evaluate }

def upstreamFixRule : RuleSpec :=
  { rule_id := "R2", priority := 2, reason_code := "UPSTREAM_FIX",
    evaluate := UpstreamFixRule.evaluate }

def underInvestigationRule : RuleSpec :=
  { rule_id := "R5", priority := 5, reason_code := "NEW_CVE",
    evaluate := UnderInvestigationRule.evaluate }

def pendingUpstreamRule : RuleSpec :=
  { rule_id := "R6", priority := 6, reason_code := "AWAITING_FIX",
    evaluate := PendingUpstreamRule.evaluate }

/-- Embed `get_default_rules`: the default chain, already in ascending priority
order (the engine's stable sort by priority is the identity on it). -/
def get_default_rules : List RuleSpec :=
  [csvOverrideRule, nvdRejectedRule, upstreamFixRule,
   underInvestigationRule, pendingUpstreamRule]

/-- Python dict assignment on a string-keyed mapping embedded as an ordered
association list: replace in place when the key exists, append otherwise. -/
def dictSet (m : List (String × PyVal)) (k : String) (v : PyVal) : List (String × PyVal) :=
  if m.any (fun p => p.1 == k) then
    m.map (fun p => if p.1 == k then (k, v) else p)
  else m ++ [(k, v)]

namespace RuleEngine

/-- Embed `RuleEngine.decide`: first rule whose evaluate returns a decision
wins; the rule id is stamped into the evidence; exhausting the chain raises
ValueError, embedded as `Except.error`. -/
def decide (rules : List RuleSpec) (d : Record) : Except String Decision :=
  match rules with
  | [] => Except.error ("No rule matched for advisory " ++ d.advisory_id.getD "unknown")
  | r :: rest =>
    match r.evaluate d with
    | some dec =>
        Except.ok { dec with evidence := dictSet dec.evidence "applied_rule" (PyVal.vStr r.rule_id) }
    | none => decide rest d

/-- Embed `RuleEngine._create_error_decision`. -/
def create_error_decision (d : Record) (error : String) : Decision :=
  { state := "unknown"
    state_type := "non_final"
    fixed_version := none
    confidence := "low"
    reason_code := "ERROR"
    evidence := [("error", PyVal.vStr error), ("advisory_id", optV d.advisory_id)]
    explanation := "Error processing advisory: " ++ error
    contributing_sources := []
    dissenting_sources := [] }

/-- Embed `RuleEngine.decide_batch`: decide each record in order, substituting
the error decision when decide fails. -/
def decide_batch (rules : List RuleSpec) (advisories : List Record) : List Decision :=
  advisories.map (fun d =>
    match decide rules d with
    | Except.ok dec => dec
    | Except.error e => create_error_decision d e)

end RuleEngine

/-! State machine (state_machine.py). -/

/-- Embed the StateType enum. -/
inductive StateType
  | FINAL
  | NON_FINAL
deriving DecidableEq, Repr

/-- Embed the `.value` attribute of StateType. -/
def StateType.value : StateType → String
  | StateType.FINAL => "final"
  | StateType.NON_FINAL => "non_final"

/-- Embed the AdvisoryStateMachine with its (possibly configured) state
partition; Python sets of strings are embedded as lists with membership
semantics. -/
structure StateMachine where
  final_states : List String
  non_final_states : List String
deriving DecidableEq, Repr

/-- Class constant FINAL_STATES. -/
def FINAL_STATES : List String := ["fixed", "not_applicable", "wont_fix"]

/-- Class constant NON_FINAL_STATES. -/
def NON_FINAL_STATES : List String := ["pending_upstream", "under_investigation", "unknown"]

/-- AdvisoryStateMachine() with the default configuration. -/
def defaultMachine : StateMachine :=
  { final_states := FINAL_STATES, non_final_states := NON_FINAL_STATES }

/-- Embed the `all_states` attribute (union of the two partitions). -/
def StateMachine.all_states (m : StateMachine) : List String :=
  m.final_states ++ m.non_final_states

/-- Embed `AdvisoryStateMachine.validate_transition`. -/
def StateMachine.validate_transition (m : StateMachine) (current_state : Option String)
    (new_state : String) (allow_regressions : Bool) : Bool × Option String :=
  if !(m.all_states.contains new_state) then
    (false, some ("Invalid target state: " ++ new_state))
  else
    match current_state with
    | none => (true, none)
    | some cur =>
      if !(m.all_states.contains cur) then
        (false, some ("Invalid current state: " ++ cur))
      else if cur == new_state then (true, none)
      else
        let current_is_final := m.final_states.contains cur
        let new_is_final := m.final_states.contains new_state
        if !current_is_final then (true, none)
        else if current_is_final && !new_is_final then
          if allow_regressions then (true, none)
          else
            (false, some ("Regression not allowed: " ++ cur ++ " (final) -> " ++
              new_state ++ " (non-final)"))
        else (true, none)

/-- Embed `AdvisoryStateMachine.get_state_type`. -/
def StateMachine.get_state_type (m : StateMachine) (state : String) : Option StateType :=
  if m.final_states.contains state then some StateType.FINAL
  else if m.non_final_states.contains state then some StateType.NON_FINAL
  else none

/-- Structured record returned by `describe_transition`. -/
structure TransitionInfo where
  from_state : Option String
  to_state : String
  is_valid : Bool
  rejection_reason : Option String
  from_type : Option String
  to_type : Option String
  is_regression : Bool
deriving DecidableEq, Repr

/-- Embed `AdvisoryStateMachine.describe_transition`.  The Python code reads
`.value` off `get_state_type(...)`, which raises AttributeError when that
returns None (a state outside the configured universe); the embedding returns
`none` on that path.  Truthiness of the current state (None or the empty
string is falsy) guards both type lookup and the regression flag. -/
def StateMachine.describe_transition (m : StateMachine) (current_state : Option String)
    (new_state : String) : Option TransitionInfo :=
  let vr := m.validate_transition current_state new_state false
  let fromType :=
    if truthyOpt current_state then
      match m.get_state_type (current_state.getD "") with
      | some t => some (some t.value)
      | none => none
    else some none
  let toType :=
    if !(new_state == "") then
      match m.get_state_type new_state with
      | some t => some (some t.value)
      | none => none
    else some none
  match fromType, toType with
  | some ft, some tt =>
    some
      { from_state := current_state
        to_state := new_state
        is_valid := vr.1
        rejection_reason := vr.2
        from_type := ft
        to_type := tt
        is_regression :=
          if truthyOpt current_state then
            m.final_states.contains (current_state.getD "") &&
              m.non_final_states.contains new_state
          else false }
  | _, _ => none

/-! SCD2 temporal store (storage/scd2_manager.py).  The database table
advisory_state_history is embedded as a list of rows in insertion order;
`datetime.utcnow()` is an explicit `Nat` parameter of `apply_state`. -/

/-- Embed the AdvisoryState dataclass (decision snapshot handed to the store).
The float staleness_score is embedded as an integer; no claim depends on its
arithmetic. -/
structure AdvisoryState where
  advisory_id : String
  cve_id : String
  package_name : String
  state : String
  state_type : String
  fixed_version : Option String
  confidence : String
  explanation : String
  reason_code : String
  evidence : List (String × PyVal)
  decision_rule : String
  contributing_sources : List String
  dissenting_sources : List String
  staleness_score : Int
deriving DecidableEq, Repr

/-- Row of the advisory_state_history table.  The evidence and source-list
columns are serialized with json.dumps in the source and are write-only in
this subsystem; the embedding keeps their structured values. -/
structure HistoryRow where
  history_id : String
  advisory_id : String
  cve_id : String
  package_name : String
  state : String
  state_type : String
  fixed_version : Option String
  confidence : String
  explanation : String
  reason_code : String
  evidence : List (String × PyVal)
  decision_rule : String
  contributing_sources : List String
  dissenting_sources : List String
  effective_from : Nat
  effective_to : Option Nat
  is_current : Bool
  run_id : String
  staleness_score : Int
deriving DecidableEq, Repr

/-- The advisory_state_history table in insertion order. -/
abbrev Store := List HistoryRow

namespace SCD2Manager

/-- Embed `SCD2Manager.get_current_state`: the row with is_current = TRUE for
the advisory (unique by the maintained invariant; fetchone embedded as the
first match). -/
def get_current_state (store : Store) (advisory_id : String) : Option HistoryRow :=
  store.find? (fun r => r.advisory_id == advisory_id && r.is_current)

/-- Embed `SCD2Manager.has_state_changed`: true when there is no current row
or one of state, fixed_version, confidence, reason_code differs. -/
def has_state_changed (current : Option HistoryRow) (new_state : AdvisoryState) : Bool :=
  match current with
  | none => true
  | some c =>
    if !(c.state == new_state.state) then true
    else if !(c.fixed_version == new_state.fixed_version) then true
    else if !(c.confidence == new_state.confidence) then true
    else if !(c.reason_code == new_state.reason_code) then true
    else false

/-- History id for a new row.  The source truncates an md5 digest of this
string; the embedding keeps the digest input itself (nothing reads it back). -/
def history_id_of (advisory_id : String) (now : Nat) : String :=
  advisory_id ++ ":" ++ toString now

/-- Embed the UPDATE closing the current record: every current row of the
advisory gets is_current = FALSE and effective_to = now. -/
def close_current (store : Store) (advisory_id : String) (now : Nat) : Store :=
  store.map (fun r =>
    if r.advisory_id == advisory_id && r.is_current then
      { r with is_current := false, effective_to := some now }
    else r)

/-- Embed the INSERT of the new current record. -/
def new_row (s : AdvisoryState) (now : Nat) (run_id : String) : HistoryRow :=
  { history_id := history_id_of s.advisory_id now
    advisory_id := s.advisory_id
    cve_id := s.cve_id
    package_name := s.package_name
    state := s.state
    state_type := s.state_type
    fixed_version := s.fixed_version
    confidence := s.confidence
    explanation := s.explanation
    reason_code := s.reason_code
    evidence := s.evidence
    decision_rule := s.decision_rule
    contributing_sources := s.contributing_sources
    dissenting_sources := s.dissenting_sources
    effective_from := now
    effective_to := none
    is_current := true
    run_id := run_id
    staleness_score := s.staleness_score }

/-- Embed `SCD2Manager.apply_state`: skip when the state has not changed,
otherwise close the current record (when one exists) and insert the new one.
Returns the updated store and whether a new history record was created. -/
def apply_state (store : Store) (new_state : AdvisoryState) (run_id : String)
    (now : Nat) : Store × Bool :=
  let current := get_current_state store new_state.advisory_id
  if !(has_state_changed current new_state) then (store, false)
  else
    let store1 :=
      if current.isSome then close_current store new_state.advisory_id now else store
    (store1 ++ [new_row new_state now run_id], true)

/-- Stable insertion step for sorting rows by effective_from. -/
def insertByFrom (r : HistoryRow) : List HistoryRow → List HistoryRow
  | [] => [r]
  | x :: xs =>
    if r.effective_from ≤ x.effective_from then r :: x :: xs
    else x :: insertByFrom r xs

/-- Stable sort by effective_from (embeds ORDER BY effective_from ASC). -/
def sortByFrom : List HistoryRow → List HistoryRow
  | [] => []
  | x :: xs => insertByFrom x (sortByFrom xs)

/-- Embed `SCD2Manager.get_history`: all rows of the advisory ordered by
effective_from ascending. -/
def get_history (store : Store) (advisory_id : String) : List HistoryRow :=
  sortByFrom (store.filter (fun r => r.advisory_id == advisory_id))

/-- Number of current rows the store holds for an advisory (the quantity the
one-current-row invariant speaks about). -/
def countCurrent (store : Store) (advisory_id : String) : Nat :=
  (store.filter (fun r => r.advisory_id == advisory_id && r.is_current)).length

end SCD2Manager

/-! Vocabulary used to state the claims. -/

/-- A rule matches a record when its evaluate returns a decision. -/
def ruleMatches (r : RuleSpec) (d : Record) : Bool := (r.evaluate d).isSome

/-- Substring search on character lists. -/
def containsSub (pat : List Char) : List Char → Bool
  | [] => pat.isEmpty
  | c :: cs => pat.isPrefixOf (c :: cs) || containsSub pat cs

/-- A string mentions a word when the word occurs in it as a substring. -/
def strContains (s pat : String) : Bool := containsSub pat.data s.data

/-- Lower-casing of ASCII letters, used for case-insensitive mention tests. -/
def lowerStr (s : String) : String :=
  String.mk (s.data.map (fun c => if c.isUpper then Char.ofNat (c.toNat + 32) else c))

/-- Sample decision snapshot used to instantiate theorems with hypotheses. -/
def sampleAdvisoryState (state confidence reason_code : String)
    (fixed_version : Option String) : AdvisoryState :=
  { advisory_id := "pkg:CVE-2024-0001"
    cve_id := "CVE-2024-0001"
    package_name := "pkg"
    state := state
    state_type := "final"
    fixed_version := fixed_version
    confidence := confidence
    explanation := "sample explanation"
    reason_code := reason_code
    evidence := []
    decision_rule := "R2:upstream_fix"
    contributing_sources := []
    dissenting_sources := []
    staleness_score := 0 }

/-! Helper lemmas shared by the claim theorems. -/

/-- Characterization of has_state_changed on an existing current row: false
exactly when the four tracked fields agree. -/
theorem has_state_changed_some_iff (c : HistoryRow) (n : AdvisoryState) :
    SCD2Manager.has_state_changed (some c) n = false ↔
      (c.state = n.state ∧ c.fixed_version = n.fixed_version ∧
        c.confidence = n.confidence ∧ c.reason_code = n.reason_code) := by
  by_cases h1 : c.state = n.state <;>
    by_cases h2 : c.fixed_version = n.fixed_version <;>
      by_cases h3 : c.confidence = n.confidence <;>
        by_cases h4 : c.reason_code = n.reason_code <;>
          simp [SCD2Manager.has_state_changed, h1, h2, h3, h4]

/-- Non-matching rules evaluate to none. -/
theorem eval_none_of_not_matches {r : RuleSpec} {d : Record}
    (h : ¬ ruleMatches r d = true) : r.evaluate d = none := by
  unfold ruleMatches at h
  cases he : r.evaluate d with
  | none => rfl
  | some v => rw [he] at h; simp at h

/-- Matching rules evaluate to a decision. -/
theorem eval_some_of_matches {r : RuleSpec} {d : Record}
    (h : ruleMatches r d = true) : ∃ dec, r.evaluate d = some dec := by
  unfold ruleMatches at h
  cases he : r.evaluate d with
  | none => rw [he] at h; simp at h
  | some v => exact ⟨v, rfl⟩

/-- Decide on a chain whose head matches returns the head's stamped decision. -/
theorem decide_cons_some {r : RuleSpec} {rest : List RuleSpec} {d : Record} {dec : Decision}
    (h : r.evaluate d = some dec) :
    RuleEngine.decide (r :: rest) d =
      Except.ok { dec with
        evidence := dictSet dec.evidence "applied_rule" (PyVal.vStr r.rule_id) } := by
  unfold RuleEngine.decide; rw [h]

/-- Decide skips a non-matching head. -/
theorem decide_cons_none {r : RuleSpec} {rest : List RuleSpec} {d : Record}
    (h : r.evaluate d = none) :
    RuleEngine.decide (r :: rest) d = RuleEngine.decide rest d := by
  conv_lhs => unfold RuleEngine.decide
  rw [h]

/-- Every decision produced by the CSV override rule carries CSV_OVERRIDE. -/
theorem csv_reason_code {d : Record} {dec : Decision}
    (h : CsvOverrideRule.evaluate d = some dec) : dec.reason_code = "CSV_OVERRIDE" := by
  unfold CsvOverrideRule.evaluate at h
  split at h
  · injection h with h; subst h; rfl
  · simp at h

/-- Every decision produced by the NVD rejection rule carries NVD_REJECTED. -/
theorem nvd_reason_code {d : Record} {dec : Decision}
    (h : NvdRejectedRule.evaluate d = some dec) : dec.reason_code = "NVD_REJECTED" := by
  unfold NvdRejectedRule.evaluate at h
  split at h
  · injection h with h; subst h; rfl
  · simp at h

/-- Every decision produced by the upstream fix rule carries UPSTREAM_FIX. -/
theorem fix_reason_code {d : Record} {dec : Decision}
    (h : UpstreamFixRule.evaluate d = some dec) : dec.reason_code = "UPSTREAM_FIX" := by
  unfold UpstreamFixRule.evaluate at h
  split at h
  · injection h with h; subst h; rfl
  · simp at h

/-- Every decision produced by the investigation rule carries NEW_CVE. -/
theorem new_cve_reason_code {d : Record} {dec : Decision}
    (h : UnderInvestigationRule.evaluate d = some dec) : dec.reason_code = "NEW_CVE" := by
  unfold UnderInvestigationRule.evaluate at h
  split at h
  · injection h with h; subst h; rfl
  · simp at h

/-- Every decision produced by the fallback rule carries AWAITING_FIX. -/
theorem awaiting_reason_code {d : Record} {dec : Decision}
    (h : PendingUpstreamRule.evaluate d = some dec) : dec.reason_code = "AWAITING_FIX" := by
  unfold PendingUpstreamRule.evaluate at h
  injection h with h; subst h; rfl

/-- Deciding a batch of a concatenation is the concatenation of the decisions. -/
theorem decide_batch_append (rules : List RuleSpec) (ds1 ds2 : List Record) :
    RuleEngine.decide_batch rules (ds1 ++ ds2) =
      RuleEngine.decide_batch rules ds1 ++ RuleEngine.decide_batch rules ds2 := by
  simp [RuleEngine.decide_batch]

/-- A batch yields one decision per record. -/
theorem decide_batch_length (rules : List RuleSpec) (ds : List Record) :
    (RuleEngine.decide_batch rules ds).length = ds.length := by
  simp [RuleEngine.decide_batch]

/-- Closing an advisory's current rows leaves it with no current row. -/
theorem countCurrent_close_current (store : Store) (a : String) (t : Nat) :
    SCD2Manager.countCurrent (SCD2Manager.close_current store a t) a = 0 := by
  unfold SCD2Manager.countCurrent SCD2Manager.close_current
  rw [List.length_eq_zero, List.filter_eq_nil_iff]
  intro r hr
  obtain ⟨x, hx, rfl⟩ := List.mem_map.mp hr
  by_cases hpx : (x.advisory_id == a && x.is_current) = true
  · simp [hpx]
  · simp [hpx]

/-- Mapping a function that fixes the rows a filter keeps and never makes a
dropped row pass does not change the filter's result. -/
theorem filter_map_eq_filter (f : HistoryRow → HistoryRow) (p : HistoryRow → Bool)
    (h1 : ∀ x, p x = true → f x = x) (h2 : ∀ x, p x = false → p (f x) = false) :
    ∀ l : List HistoryRow, (l.map f).filter p = l.filter p := by
  intro l
  induction l with
  | nil => rfl
  | cons x xs ih =>
    rw [List.map_cons]
    cases hpx : p x with
    | true =>
      rw [h1 x hpx, List.filter_cons_of_pos hpx, List.filter_cons_of_pos hpx, ih]
    | false =>
      rw [List.filter_cons_of_neg (by simp [h2 x hpx]),
        List.filter_cons_of_neg (by simp [hpx]), ih]

/-- Closing one advisory's current rows does not change another advisory's
current-row count. -/
theorem countCurrent_close_other (store : Store) (a b : String) (t : Nat) (hab : a ≠ b) :
    SCD2Manager.countCurrent (SCD2Manager.close_current store b t) a =
      SCD2Manager.countCurrent store a := by
  unfold SCD2Manager.countCurrent SCD2Manager.close_current
  rw [filter_map_eq_filter]
  · intro x hx
    have hxa : x.advisory_id = a := by
      have := (Bool.and_eq_true _ _).mp hx
      exact beq_iff_eq.mp this.1
    have hxb : (x.advisory_id == b) = false := by
      rw [hxa]
      exact beq_eq_false_iff_ne.mpr hab
    simp [hxb]
  · intro x hx
    by_cases hpb : (x.advisory_id == b && x.is_current) = true
    · simp [hpb]
    · simp only [Bool.not_eq_true] at hpb
      simp [hpb, hx]

/-- Without a current row, the current-row count is zero. -/
theorem countCurrent_zero_of_no_current (store : Store) (a : String)
    (h : SCD2Manager.get_current_state store a = none) :
    SCD2Manager.countCurrent store a = 0 := by
  unfold SCD2Manager.get_current_state at h
  unfold SCD2Manager.countCurrent
  rw [List.length_eq_zero, List.filter_eq_nil_iff]
  exact List.find?_eq_none.mp h

/-- Current-row counting distributes over append. -/
theorem countCurrent_append (s1 s2 : Store) (a : String) :
    SCD2Manager.countCurrent (s1 ++ s2) a =
      SCD2Manager.countCurrent s1 a + SCD2Manager.countCurrent s2 a := by
  unfold SCD2Manager.countCurrent
  rw [List.filter_append, List.length_append]

/-- Searching an append whose first part has no hit searches the second part. -/
theorem find?_append_of_none {p : HistoryRow → Bool} {l1 l2 : List HistoryRow}
    (h : l1.find? p = none) : (l1 ++ l2).find? p = l2.find? p := by
  induction l1 with
  | nil => rfl
  | cons x xs ih =>
    rw [List.cons_append]
    cases hpx : p x with
    | true => rw [List.find?_cons_of_pos _ hpx] at h; simp at h
    | false =>
      rw [List.find?_cons_of_neg _ (by simp [hpx])] at h
      rw [List.find?_cons_of_neg _ (by simp [hpx])]
      exact ih h

/-! Claim theorems. -/

/-- Claim C4: has_state_changed returns false iff a current row exists and it
agrees with the candidate on state, fixed_version, confidence and reason_code;
rows that differ only elsewhere (evidence, explanation, source lists, or any
other column) make it behave identically. -/
theorem C4_has_state_changed (current : Option HistoryRow) (n : AdvisoryState) :
    (SCD2Manager.has_state_changed current n = false ↔
      ∃ c, current = some c ∧ c.state = n.state ∧ c.fixed_version = n.fixed_version ∧
        c.confidence = n.confidence ∧ c.reason_code = n.reason_code) ∧
    (∀ c c' : HistoryRow, c.state = c'.state → c.fixed_version = c'.fixed_version →
      c.confidence = c'.confidence → c.reason_code = c'.reason_code →
      SCD2Manager.has_state_changed (some c) n = SCD2Manager.has_state_changed (some c') n) := by
  constructor
  · cases current with
    | none => simp [SCD2Manager.has_state_changed]
    | some c => simp [has_state_changed_some_iff]
  · intro c c' e1 e2 e3 e4
    have hiff : (SCD2Manager.has_state_changed (some c) n = false) ↔
        (SCD2Manager.has_state_changed (some c') n = false) := by
      rw [has_state_changed_some_iff, has_state_changed_some_iff, e1, e2, e3, e4]
    cases hb : SCD2Manager.has_state_changed (some c) n <;>
      cases hb' : SCD2Manager.has_state_changed (some c') n <;> simp_all

/-- Witness for C4: two current rows that differ only in their explanation and
evidence are treated identically by has_state_changed. -/
theorem C4_has_state_changed_witness :
    SCD2Manager.has_state_changed
        (some (SCD2Manager.new_row (sampleAdvisoryState "fixed" "high" "UPSTREAM_FIX" (some "1.2.3")) 0 "run-1")) (sampleAdvisoryState "fixed" "high" "UPSTREAM_FIX" (some "1.2.3")) =
      SCD2Manager.has_state_changed
        (some { SCD2Manager.new_row (sampleAdvisoryState "fixed" "high" "UPSTREAM_FIX" (some "1.2.3")) 0 "run-1" with
          explanation := "a different explanation",
          evidence := [("extra", PyVal.vBool true)] }) (sampleAdvisoryState "fixed" "high" "UPSTREAM_FIX" (some "1.2.3")) :=
  (C4_has_state_changed none (sampleAdvisoryState "fixed" "high" "UPSTREAM_FIX" (some "1.2.3"))).2
    _ _ rfl rfl rfl rfl

/-- Claim C5: with the default partition, fixed to pending_upstream is
rejected with a reason mentioning regression, allowed when allow_regression is
set, and in general every transition from a final state to a non-final state
is rejected unless allow_regression is set. -/
theorem C5_regression_blocked :
    (defaultMachine.validate_transition (some "fixed") "pending_upstream" false).1 = false ∧
    (∃ r, (defaultMachine.validate_transition (some "fixed") "pending_upstream" false).2 = some r ∧
      strContains (lowerStr r) "regression" = true) ∧
    defaultMachine.validate_transition (some "fixed") "pending_upstream" true = (true, none) ∧
    (∀ c ∈ defaultMachine.final_states, ∀ n ∈ defaultMachine.non_final_states,
      (defaultMachine.validate_transition (some c) n false).1 = false ∧
      (defaultMachine.validate_transition (some c) n true).1 = true) := by
  refine ⟨by decide, ⟨"Regression not allowed: fixed (final) -> pending_upstream (non-final)", by decide, by decide⟩, by decide, by decide⟩

/-- Witness for C5: the general final-to-non-final clause applied at the
concrete pair not_applicable to unknown. -/
theorem C5_regression_blocked_witness :
    (defaultMachine.validate_transition (some "not_applicable") "unknown" false).1 = false ∧
    (defaultMachine.validate_transition (some "not_applicable") "unknown" true).1 = true :=
  C5_regression_blocked.2.2.2 "not_applicable" (by decide) "unknown" (by decide)

/-- Claim C6: with the default rule chain, decide is total (the no-matching-
rule error is unreachable because the catch-all always produces a decision),
and the minimal record with only advisory_id yields reason_code NEW_CVE or
AWAITING_FIX. -/
theorem C6_catch_all_total :
    (∀ d : Record, ∃ dec, RuleEngine.decide get_default_rules d = Except.ok dec) ∧
    (∃ dec, RuleEngine.decide get_default_rules { advisory_id := some "minimal" } =
        Except.ok dec ∧ (dec.reason_code = "NEW_CVE" ∨ dec.reason_code = "AWAITING_FIX")) := by
  constructor
  · intro d
    by_cases h0 : d.override_status == some "not_applicable" <;>
      by_cases h1 : d.is_rejected <;>
        by_cases h2 : d.fix_available && truthyOpt d.fixed_version <;>
          by_cases h3 : d.has_signal <;>
            simp [RuleEngine.decide, get_default_rules, csvOverrideRule, nvdRejectedRule,
              upstreamFixRule, underInvestigationRule, pendingUpstreamRule,
              CsvOverrideRule.evaluate, NvdRejectedRule.evaluate, UpstreamFixRule.evaluate,
              UnderInvestigationRule.evaluate, PendingUpstreamRule.evaluate, h0, h1, h2, h3]
  · exact ⟨_, rfl, by decide⟩

/-- Claim C2: when a record satisfies the match conditions of several default
rules, decide returns the decision of the matching rule with the lowest
priority number; in particular a record with CSV override, NVD rejection and
an available fix simultaneously gets reason_code CSV_OVERRIDE. -/
theorem C2_priority_tiebreak :
    (∀ d : Record, ∀ r ∈ get_default_rules, ruleMatches r d = true →
      (∀ r2 ∈ get_default_rules, ruleMatches r2 d = true → r.priority ≤ r2.priority) →
      ∃ dec, RuleEngine.decide get_default_rules d = Except.ok dec ∧
        dec.reason_code = r.reason_code) ∧
    (∀ d : Record, d.override_status = some "not_applicable" → d.is_rejected = true →
      d.fix_available = true → truthyOpt d.fixed_version = true →
      ∃ dec, RuleEngine.decide get_default_rules d = Except.ok dec ∧
        dec.reason_code = "CSV_OVERRIDE") := by
  constructor
  · intro d r hr hm hmin
    have hmem : r = csvOverrideRule ∨ r = nvdRejectedRule ∨ r = upstreamFixRule ∨
        r = underInvestigationRule ∨ r = pendingUpstreamRule := by
      simpa [get_default_rules] using hr
    rcases hmem with rfl | rfl | rfl | rfl | rfl
    · obtain ⟨dec, hdec⟩ := eval_some_of_matches hm
      simp only [get_default_rules]
      rw [decide_cons_some hdec]
      exact ⟨_, rfl, by simpa [csvOverrideRule] using csv_reason_code hdec⟩
    · have hc0 : ¬ ruleMatches csvOverrideRule d = true := by
        intro hm0
        have := hmin csvOverrideRule (by simp [get_default_rules]) hm0
        simp [csvOverrideRule, nvdRejectedRule] at this
      obtain ⟨dec, hdec⟩ := eval_some_of_matches hm
      simp only [get_default_rules]
      rw [decide_cons_none (eval_none_of_not_matches hc0), decide_cons_some hdec]
      exact ⟨_, rfl, by simpa [nvdRejectedRule] using nvd_reason_code hdec⟩
    · have hc0 : ¬ ruleMatches csvOverrideRule d = true := by
        intro hm0
        have := hmin csvOverrideRule (by simp [get_default_rules]) hm0
        simp [csvOverrideRule, upstreamFixRule] at this
      have hc1 : ¬ ruleMatches nvdRejectedRule d = true := by
        intro hm0
        have := hmin nvdRejectedRule (by simp [get_default_rules]) hm0
        simp [nvdRejectedRule, upstreamFixRule] at this
      obtain ⟨dec, hdec⟩ := eval_some_of_matches hm
      simp only [get_default_rules]
      rw [decide_cons_none (eval_none_of_not_matches hc0),
        decide_cons_none (eval_none_of_not_matches hc1), decide_cons_some hdec]
      exact ⟨_, rfl, by simpa [upstreamFixRule] using fix_reason_code hdec⟩
    · have hc0 : ¬ ruleMatches csvOverrideRule d = true := by
        intro hm0
        have := hmin csvOverrideRule (by simp [get_default_rules]) hm0
        simp [csvOverrideRule, underInvestigationRule] at this
      have hc1 : ¬ ruleMatches nvdRejectedRule d = true := by
        intro hm0
        have := hmin nvdRejectedRule (by simp [get_default_rules]) hm0
        simp [nvdRejectedRule, underInvestigationRule] at this
      have hc2 : ¬ ruleMatches upstreamFixRule d = true := by
        intro hm0
        have := hmin upstreamFixRule (by simp [get_default_rules]) hm0
        simp [upstreamFixRule, underInvestigationRule] at this
      obtain ⟨dec, hdec⟩ := eval_some_of_matches hm
      simp only [get_default_rules]
      rw [decide_cons_none (eval_none_of_not_matches hc0),
        decide_cons_none (eval_none_of_not_matches hc1),
        decide_cons_none (eval_none_of_not_matches hc2), decide_cons_some hdec]
      exact ⟨_, rfl, by simpa [underInvestigationRule] using new_cve_reason_code hdec⟩
    · have hc0 : ¬ ruleMatches csvOverrideRule d = true := by
        intro hm0
        have := hmin csvOverrideRule (by simp [get_default_rules]) hm0
        simp [csvOverrideRule, pendingUpstreamRule] at this
      have hc1 : ¬ ruleMatches nvdRejectedRule d = true := by
        intro hm0
        have := hmin nvdRejectedRule (by simp [get_default_rules]) hm0
        simp [nvdRejectedRule, pendingUpstreamRule] at this
      have hc2 : ¬ ruleMatches upstreamFixRule d = true := by
        intro hm0
        have := hmin upstreamFixRule (by simp [get_default_rules]) hm0
        simp [upstreamFixRule, pendingUpstreamRule] at this
      have hc3 : ¬ ruleMatches underInvestigationRule d = true := by
        intro hm0
        have := hmin underInvestigationRule (by simp [get_default_rules]) hm0
        simp [underInvestigationRule, pendingUpstreamRule] at this
      obtain ⟨dec, hdec⟩ := eval_some_of_matches hm
      simp only [get_default_rules]
      rw [decide_cons_none (eval_none_of_not_matches hc0),
        decide_cons_none (eval_none_of_not_matches hc1),
        decide_cons_none (eval_none_of_not_matches hc2),
        decide_cons_none (eval_none_of_not_matches hc3), decide_cons_some hdec]
      exact ⟨_, rfl, by simpa [pendingUpstreamRule] using awaiting_reason_code hdec⟩
  · intro d h0 h1 h2 h3
    have hmatch : ruleMatches csvOverrideRule d = true := by
      simp [ruleMatches, csvOverrideRule, CsvOverrideRule.evaluate, h0]
    obtain ⟨dec, hdec⟩ := eval_some_of_matches hmatch
    simp only [get_default_rules]
    rw [decide_cons_some hdec]
    exact ⟨_, rfl, by simpa using csv_reason_code hdec⟩

/-- Witness for C2: the spec's example record with override, rejection and fix
all present decides to CSV_OVERRIDE. -/
theorem C2_priority_tiebreak_witness :
    ∃ dec, RuleEngine.decide get_default_rules
        { advisory_id := some "pkg:CVE-2024-0002", override_status := some "not_applicable",
          is_rejected := true, fix_available := true, fixed_version := some "1.0.0" } =
        Except.ok dec ∧ dec.reason_code = "CSV_OVERRIDE" :=
  C2_priority_tiebreak.2
    { advisory_id := some "pkg:CVE-2024-0002", override_status := some "not_applicable",
      is_rejected := true, fix_available := true, fixed_version := some "1.0.0" }
    rfl rfl rfl (by decide)

/-- Claim C7: decide_batch returns one decision per record in input order;
the element for each record is decide's result for that record alone, with
a state=unknown, confidence=low, reason_code=ERROR decision carrying the
failure message substituted on failure; replacing one record never changes
the decisions of the records before or after it. -/
theorem C7_batch_independence :
    (∀ (rules : List RuleSpec) (ds : List Record) (i : Nat),
      (RuleEngine.decide_batch rules ds).get? i = (ds.get? i).map (fun d =>
        match RuleEngine.decide rules d with
        | Except.ok dec => dec
        | Except.error e => RuleEngine.create_error_decision d e)) ∧
    (∀ (d : Record) (e : String),
      (RuleEngine.create_error_decision d e).state = "unknown" ∧
      (RuleEngine.create_error_decision d e).confidence = "low" ∧
      (RuleEngine.create_error_decision d e).reason_code = "ERROR" ∧
      (RuleEngine.create_error_decision d e).explanation = "Error processing advisory: " ++ e ∧
      ("error", PyVal.vStr e) ∈ (RuleEngine.create_error_decision d e).evidence) ∧
    (∀ (rules : List RuleSpec) (ds1 ds2 : List Record) (d d2 : Record),
      (RuleEngine.decide_batch rules (ds1 ++ d :: ds2)).take ds1.length =
        (RuleEngine.decide_batch rules (ds1 ++ d2 :: ds2)).take ds1.length ∧
      (RuleEngine.decide_batch rules (ds1 ++ d :: ds2)).drop (ds1.length + 1) =
        (RuleEngine.decide_batch rules (ds1 ++ d2 :: ds2)).drop (ds1.length + 1)) := by
  refine ⟨?_, ?_, ?_⟩
  · intro rules ds i
    simp [RuleEngine.decide_batch]
  · intro d e
    exact ⟨rfl, rfl, rfl, rfl, by simp [RuleEngine.create_error_decision]⟩
  · intro rules ds1 ds2 d d2
    constructor
    · rw [decide_batch_append rules ds1 (d :: ds2), decide_batch_append rules ds1 (d2 :: ds2),
        ← decide_batch_length rules ds1, List.take_left, List.take_left]
    · have he1 : ds1 ++ d :: ds2 = (ds1 ++ [d]) ++ ds2 := by simp
      have he2 : ds1 ++ d2 :: ds2 = (ds1 ++ [d2]) ++ ds2 := by simp
      have hl1 : (RuleEngine.decide_batch rules (ds1 ++ [d])).length = ds1.length + 1 := by
        simp [decide_batch_length]
      have hl2 : (RuleEngine.decide_batch rules (ds1 ++ [d2])).length = ds1.length + 1 := by
        simp [decide_batch_length]
      rw [he1, he2, decide_batch_append rules (ds1 ++ [d]) ds2,
        decide_batch_append rules (ds1 ++ [d2]) ds2,
        List.drop_left' hl1, List.drop_left' hl2]

/-- Counterexample to claim C8: describe_transition does not return a
structured record for every new state string — for a target state outside the
known universe the source dereferences `.value` on None and raises
AttributeError (embedded as none). -/
theorem C8_counterexample :
    defaultMachine.describe_transition (some "fixed") "bogus" = none := by decide

/-- Claim C8 (amended): for a current state that is none or in the known state
universe and a new state in the known universe, describe_transition returns a
structured record carrying the transition fields, whose is_regression flag is
true exactly when the current state is final and the new state is non-final
(false when current is none), and validate_transition is consulted with
allow_regressions fixed to false. -/
theorem C8_describe_transition (cur : Option String) (ns : String)
    (hcur : cur = none ∨ ∃ c, cur = some c ∧ c ∈ defaultMachine.all_states)
    (hns : ns ∈ defaultMachine.all_states) :
    ∃ info, defaultMachine.describe_transition cur ns = some info ∧
      info.from_state = cur ∧ info.to_state = ns ∧
      info.is_valid = (defaultMachine.validate_transition cur ns false).1 ∧
      info.rejection_reason = (defaultMachine.validate_transition cur ns false).2 ∧
      info.is_regression =
        (match cur with
          | some c => decide (c ∈ FINAL_STATES ∧ ns ∈ NON_FINAL_STATES)
          | none => false) := by
  rcases hcur with rfl | ⟨c, rfl, hc⟩
  · fin_cases hns <;> exact ⟨_, rfl, rfl, rfl, rfl, rfl, rfl⟩
  · fin_cases hc <;> fin_cases hns <;> exact ⟨_, rfl, rfl, rfl, rfl, rfl, rfl⟩

/-- Witness for C8 (amended): the regression pair fixed to pending_upstream. -/
theorem C8_describe_transition_witness :
    ∃ info, defaultMachine.describe_transition (some "fixed") "pending_upstream" = some info ∧
      info.from_state = some "fixed" ∧ info.to_state = "pending_upstream" ∧
      info.is_valid = (defaultMachine.validate_transition (some "fixed") "pending_upstream" false).1 ∧
      info.rejection_reason =
        (defaultMachine.validate_transition (some "fixed") "pending_upstream" false).2 ∧
      info.is_regression =
        (match (some "fixed" : Option String) with
          | some c => decide (c ∈ FINAL_STATES ∧ "pending_upstream" ∈ NON_FINAL_STATES)
          | none => false) :=
  C8_describe_transition (some "fixed") "pending_upstream"
    (Or.inr ⟨"fixed", rfl, by decide⟩) (by decide)

/-- Counterexample to claim C9: the rule's explanation does not render an
unparseable csv_updated_at as unknown date — the raw string is interpolated
verbatim via str(). -/
theorem C9_counterexample :
    (CsvOverrideRule.evaluate
        { override_status := some "not_applicable", override_reason := some "policy",
          csv_updated_at := some "not-a-date" }).map Decision.explanation =
      some "Marked as not applicable by Echo security team. Reason: policy. Updated: not-a-date." ∧
    strContains
      "Marked as not applicable by Echo security team. Reason: policy. Updated: not-a-date."
      "unknown date" = false := by
  exact ⟨by decide, by decide⟩

/-- Claim C9 (amended): for every record with override_status not_applicable, the
CSV override decision's explanation is built from override_reason (defaulting
to Internal policy) and csv_updated_at, where csv_updated_at is rendered via
str() whenever present and truthy — with no timestamp parsing or calendar
formatting — and as unknown date when absent or falsy. -/
theorem C9_explanation (d : Record) (h : d.override_status = some "not_applicable") :
    ∃ dec, CsvOverrideRule.evaluate d = some dec ∧
      dec.explanation =
        "Marked as not applicable by Echo security team. Reason: " ++
          d.override_reason.getD "Internal policy" ++ ". Updated: " ++
          (match d.csv_updated_at with
            | some s => if s = "" then "unknown date" else s
            | none => "unknown date") ++ "." := by
  simp only [CsvOverrideRule.evaluate, h, beq_self_eq_true, if_true]
  refine ⟨_, rfl, ?_⟩
  simp only [CsvOverrideRule.build_explanation]
  cases hc : d.csv_updated_at with
  | none => simp [hc]
  | some s => by_cases hs : s = "" <;> simp [hc, hs]

/-- Witness for C9 (amended): a record with no override reason and an empty
csv_updated_at renders the defaults. -/
theorem C9_explanation_witness :
    ∃ dec, CsvOverrideRule.evaluate
        { override_status := some "not_applicable", csv_updated_at := some "" } = some dec ∧
      dec.explanation =
        "Marked as not applicable by Echo security team. Reason: " ++
          (none : Option String).getD "Internal policy" ++ ". Updated: " ++
          (match (some "" : Option String) with
            | some s => if s = "" then "unknown date" else s
            | none => "unknown date") ++ "." :=
  C9_explanation { override_status := some "not_applicable", csv_updated_at := some "" } rfl

/-- Claim C10: a contributing_sources value that is a string failing to parse
as JSON, or parsing to a non-list JSON value, is treated as no sources: the
default rules that read it evaluate without raising and any decision they
produce carries an empty contributing_sources list. -/
theorem C10_malformed_sources (d : Record) (s : String)
    (h : d.contributing_sources = SrcVal.strInvalid s ∨
      d.contributing_sources = SrcVal.strJsonOther s) :
    extract_sources d = [] ∧
    (∀ dec, UpstreamFixRule.evaluate d = some dec → dec.contributing_sources = []) ∧
    (∀ dec, UnderInvestigationRule.evaluate d = some dec → dec.contributing_sources = []) ∧
    (∃ dec, PendingUpstreamRule.evaluate d = some dec ∧ dec.contributing_sources = []) := by
  have hx : extract_sources d = [] := by
    rcases h with h | h <;> simp [extract_sources, h]
  refine ⟨hx, ?_, ?_, ?_⟩
  · intro dec hdec
    unfold UpstreamFixRule.evaluate at hdec
    split at hdec
    · injection hdec with hdec; subst hdec; exact hx
    · simp at hdec
  · intro dec hdec
    unfold UnderInvestigationRule.evaluate at hdec
    split at hdec
    · injection hdec with hdec; subst hdec; exact hx
    · simp at hdec
  · exact ⟨_, rfl, hx⟩

/-- Witness for C10: a contributing_sources string that is not JSON yields no
sources, and the fallback decision for it carries an empty source list. -/
theorem C10_malformed_sources_witness :
    extract_sources { contributing_sources := SrcVal.strInvalid "not json" } = [] ∧
    (∃ dec, PendingUpstreamRule.evaluate { contributing_sources := SrcVal.strInvalid "not json" } =
        some dec ∧ dec.contributing_sources = []) :=
  ⟨(C10_malformed_sources { contributing_sources := SrcVal.strInvalid "not json" } "not json"
      (Or.inl rfl)).1,
   (C10_malformed_sources { contributing_sources := SrcVal.strInvalid "not json" } "not json"
      (Or.inl rfl)).2.2.2⟩

/-- Claim C1: apply_state maintains the single-current-row invariant — a call
that creates a version leaves exactly one current row for that advisory, a
skipped call leaves the store untouched, and other advisories' current-row
counts never change; and applying state A then a differing state B from an
empty store yields a two-row history whose first row is closed (is_current
false, non-null effective_to) and whose second row is current with a null
effective_to. -/
theorem C1_current_row_invariant :
    (∀ (store : Store) (S : AdvisoryState) (rid : String) (t : Nat),
      ((SCD2Manager.apply_state store S rid t).2 = true →
        SCD2Manager.countCurrent (SCD2Manager.apply_state store S rid t).1 S.advisory_id = 1) ∧
      ((SCD2Manager.apply_state store S rid t).2 = false →
        (SCD2Manager.apply_state store S rid t).1 = store) ∧
      (∀ a, a ≠ S.advisory_id →
        SCD2Manager.countCurrent (SCD2Manager.apply_state store S rid t).1 a =
          SCD2Manager.countCurrent store a)) ∧
    (∀ (A B : AdvisoryState) (r1 r2 : String) (t1 t2 : Nat),
      B.advisory_id = A.advisory_id → t1 < t2 →
      ¬(A.state = B.state ∧ A.fixed_version = B.fixed_version ∧
        A.confidence = B.confidence ∧ A.reason_code = B.reason_code) →
      ∃ h1 h2, SCD2Manager.get_history
          (SCD2Manager.apply_state (SCD2Manager.apply_state [] A r1 t1).1 B r2 t2).1
          A.advisory_id = [h1, h2] ∧
        h1.is_current = false ∧ h1.effective_to = some t2 ∧
        h2.is_current = true ∧ h2.effective_to = none) := by
  constructor
  · intro store S rid t
    cases hch : SCD2Manager.has_state_changed
        (SCD2Manager.get_current_state store S.advisory_id) S with
    | false =>
      have happ : SCD2Manager.apply_state store S rid t = (store, false) := by
        simp [SCD2Manager.apply_state, hch]
      rw [happ]
      exact ⟨fun h => absurd h (by simp), fun _ => rfl, fun a _ => rfl⟩
    | true =>
      cases hc : SCD2Manager.get_current_state store S.advisory_id with
      | none =>
        have happ : SCD2Manager.apply_state store S rid t =
            (store ++ [SCD2Manager.new_row S t rid], true) := by
          rw [hc] at hch
          simp [SCD2Manager.apply_state, hc, hch]
        rw [happ]
        refine ⟨fun _ => ?_, fun h => absurd h (by simp), fun a ha => ?_⟩
        · rw [countCurrent_append, countCurrent_zero_of_no_current store S.advisory_id hc]
          simp [SCD2Manager.countCurrent, SCD2Manager.new_row]
        · rw [countCurrent_append]
          have : SCD2Manager.countCurrent [SCD2Manager.new_row S t rid] a = 0 := by
            simp [SCD2Manager.countCurrent, SCD2Manager.new_row,
              beq_eq_false_iff_ne.mpr (fun h => ha h.symm)]
          rw [this, Nat.add_zero]
      | some cur =>
        have happ : SCD2Manager.apply_state store S rid t =
            (SCD2Manager.close_current store S.advisory_id t ++
              [SCD2Manager.new_row S t rid], true) := by
          rw [hc] at hch
          simp [SCD2Manager.apply_state, hc, hch]
        rw [happ]
        refine ⟨fun _ => ?_, fun h => absurd h (by simp), fun a ha => ?_⟩
        · rw [countCurrent_append, countCurrent_close_current]
          simp [SCD2Manager.countCurrent, SCD2Manager.new_row]
        · rw [countCurrent_append, countCurrent_close_other store a S.advisory_id t ha]
          have : SCD2Manager.countCurrent [SCD2Manager.new_row S t rid] a = 0 := by
            simp [SCD2Manager.countCurrent, SCD2Manager.new_row,
              beq_eq_false_iff_ne.mpr (fun h => ha h.symm)]
          rw [this, Nat.add_zero]
  · intro A B r1 r2 t1 t2 hAB ht hdiff
    have h1 : SCD2Manager.apply_state [] A r1 t1 = ([SCD2Manager.new_row A t1 r1], true) := by
      unfold SCD2Manager.apply_state
      rfl
    have hpred : ((SCD2Manager.new_row A t1 r1).advisory_id == B.advisory_id &&
        (SCD2Manager.new_row A t1 r1).is_current) = true := by
      simp [SCD2Manager.new_row, hAB]
    have h2cur : SCD2Manager.get_current_state [SCD2Manager.new_row A t1 r1] B.advisory_id =
        some (SCD2Manager.new_row A t1 r1) := by
      unfold SCD2Manager.get_current_state
      exact List.find?_cons_of_pos _ hpred
    have hch2 : SCD2Manager.has_state_changed (some (SCD2Manager.new_row A t1 r1)) B = true := by
      cases hb : SCD2Manager.has_state_changed (some (SCD2Manager.new_row A t1 r1)) B with
      | true => rfl
      | false =>
        have hfields := (has_state_changed_some_iff (SCD2Manager.new_row A t1 r1) B).mp hb
        exact absurd (by simpa [SCD2Manager.new_row] using hfields) hdiff
    have hclose : SCD2Manager.close_current [SCD2Manager.new_row A t1 r1] B.advisory_id t2 =
        [{ SCD2Manager.new_row A t1 r1 with
          is_current := false, effective_to := some t2 }] := by
      unfold SCD2Manager.close_current
      rw [List.map_cons, List.map_nil, if_pos hpred]
    have h2 : SCD2Manager.apply_state [SCD2Manager.new_row A t1 r1] B r2 t2 =
        ([{ SCD2Manager.new_row A t1 r1 with
          is_current := false, effective_to := some t2 },
          SCD2Manager.new_row B t2 r2], true) := by
      simp only [SCD2Manager.apply_state, h2cur, hch2, hclose]
      rfl
    have hhist : SCD2Manager.get_history
        [{ SCD2Manager.new_row A t1 r1 with
          is_current := false, effective_to := some t2 },
          SCD2Manager.new_row B t2 r2] A.advisory_id =
        [{ SCD2Manager.new_row A t1 r1 with
          is_current := false, effective_to := some t2 },
          SCD2Manager.new_row B t2 r2] := by
      simp [SCD2Manager.get_history, SCD2Manager.sortByFrom, SCD2Manager.insertByFrom,
        SCD2Manager.new_row, hAB, Nat.le_of_lt ht]
    have h1a : (SCD2Manager.apply_state [] A r1 t1).1 = [SCD2Manager.new_row A t1 r1] := by
      rw [h1]
    have h2a : (SCD2Manager.apply_state [SCD2Manager.new_row A t1 r1] B r2 t2).1 =
        [{ SCD2Manager.new_row A t1 r1 with
          is_current := false, effective_to := some t2 },
          SCD2Manager.new_row B t2 r2] := by
      rw [h2]
    rw [h1a, h2a]
    exact ⟨_, _, hhist, rfl, rfl, rfl, rfl⟩

/-- Witness for C1: applying a pending decision then a fixed decision for the
same advisory from an empty store yields the closed-then-current history. -/
theorem C1_current_row_invariant_witness :
    ∃ h1 h2, SCD2Manager.get_history
        (SCD2Manager.apply_state
          (SCD2Manager.apply_state [] (sampleAdvisoryState "pending_upstream" "medium" "AWAITING_FIX" none) "run-1" 10).1
          (sampleAdvisoryState "fixed" "high" "UPSTREAM_FIX" (some "2.0.7")) "run-2" 20).1
        (sampleAdvisoryState "pending_upstream" "medium" "AWAITING_FIX" none).advisory_id = [h1, h2] ∧
      h1.is_current = false ∧ h1.effective_to = some 20 ∧
      h2.is_current = true ∧ h2.effective_to = none :=
  C1_current_row_invariant.2
    (sampleAdvisoryState "pending_upstream" "medium" "AWAITING_FIX" none)
    (sampleAdvisoryState "fixed" "high" "UPSTREAM_FIX" (some "2.0.7"))
    "run-1" "run-2" 10 20 rfl (by decide) (by decide)

/-- Claim C3: applying a state to a store holding no rows for its advisory
creates a version; immediately re-applying the same state reports no change,
leaves the store untouched, and the history for the advisory still has
exactly one row. -/
theorem C3_scd2_idempotence (store0 : Store) (S : AdvisoryState) (r1 r2 : String) (t1 t2 : Nat)
    (hempty : ∀ r ∈ store0, r.advisory_id ≠ S.advisory_id) :
    (SCD2Manager.apply_state store0 S r1 t1).2 = true ∧
    (SCD2Manager.apply_state (SCD2Manager.apply_state store0 S r1 t1).1 S r2 t2).2 = false ∧
    (SCD2Manager.apply_state (SCD2Manager.apply_state store0 S r1 t1).1 S r2 t2).1 =
      (SCD2Manager.apply_state store0 S r1 t1).1 ∧
    (SCD2Manager.get_history (SCD2Manager.apply_state store0 S r1 t1).1 S.advisory_id).length
      = 1 := by
  have hfind0 : store0.find?
      (fun r => r.advisory_id == S.advisory_id && r.is_current) = none := by
    rw [List.find?_eq_none]
    intro x hx
    simp [beq_eq_false_iff_ne.mpr (hempty x hx)]
  have hcur0 : SCD2Manager.get_current_state store0 S.advisory_id = none := hfind0
  have h1 : SCD2Manager.apply_state store0 S r1 t1 =
      (store0 ++ [SCD2Manager.new_row S t1 r1], true) := by
    simp only [SCD2Manager.apply_state, hcur0]
    rfl
  have hpred : ((SCD2Manager.new_row S t1 r1).advisory_id == S.advisory_id &&
      (SCD2Manager.new_row S t1 r1).is_current) = true := by
    simp [SCD2Manager.new_row]
  have hcur1 : SCD2Manager.get_current_state (store0 ++ [SCD2Manager.new_row S t1 r1])
      S.advisory_id = some (SCD2Manager.new_row S t1 r1) := by
    unfold SCD2Manager.get_current_state
    rw [find?_append_of_none hfind0]
    exact List.find?_cons_of_pos _ hpred
  have hch : SCD2Manager.has_state_changed (some (SCD2Manager.new_row S t1 r1)) S = false := by
    simp [SCD2Manager.has_state_changed, SCD2Manager.new_row]
  have h2 : SCD2Manager.apply_state (store0 ++ [SCD2Manager.new_row S t1 r1]) S r2 t2 =
      (store0 ++ [SCD2Manager.new_row S t1 r1], false) := by
    simp only [SCD2Manager.apply_state, hcur1, hch]
    rfl
  have hhist : SCD2Manager.get_history (store0 ++ [SCD2Manager.new_row S t1 r1])
      S.advisory_id = [SCD2Manager.new_row S t1 r1] := by
    unfold SCD2Manager.get_history
    rw [List.filter_append]
    have hnil : store0.filter (fun r => r.advisory_id == S.advisory_id) = [] := by
      rw [List.filter_eq_nil_iff]
      intro x hx
      simp [beq_eq_false_iff_ne.mpr (hempty x hx)]
    rw [hnil, List.nil_append, List.filter_cons_of_pos (by simp [SCD2Manager.new_row]),
      List.filter_nil]
    rfl
  have h1a : (SCD2Manager.apply_state store0 S r1 t1).1 =
      store0 ++ [SCD2Manager.new_row S t1 r1] := by
    rw [h1]
  refine ⟨by rw [h1], ?_, ?_, ?_⟩
  · rw [h1a, h2]
  · rw [h1a, h2]
  · rw [h1a, hhist]
    rfl

/-- Witness for C3: re-applying the same fixed decision to the store that was
empty for the advisory is reported as no change and keeps a one-row history. -/
theorem C3_scd2_idempotence_witness :
    (SCD2Manager.apply_state [] (sampleAdvisoryState "fixed" "high" "UPSTREAM_FIX" (some "2.0.7")) "run-1" 10).2 = true ∧
    (SCD2Manager.apply_state
      (SCD2Manager.apply_state [] (sampleAdvisoryState "fixed" "high" "UPSTREAM_FIX" (some "2.0.7")) "run-1" 10).1
      (sampleAdvisoryState "fixed" "high" "UPSTREAM_FIX" (some "2.0.7")) "run-2" 20).2 = false ∧
    (SCD2Manager.apply_state
      (SCD2Manager.apply_state [] (sampleAdvisoryState "fixed" "high" "UPSTREAM_FIX" (some "2.0.7")) "run-1" 10).1
      (sampleAdvisoryState "fixed" "high" "UPSTREAM_FIX" (some "2.0.7")) "run-2" 20).1 =
      (SCD2Manager.apply_state [] (sampleAdvisoryState "fixed" "high" "UPSTREAM_FIX" (some "2.0.7")) "run-1" 10).1 ∧
    (SCD2Manager.get_history
      (SCD2Manager.apply_state [] (sampleAdvisoryState "fixed" "high" "UPSTREAM_FIX" (some "2.0.7")) "run-1" 10).1
      (sampleAdvisoryState "fixed" "high" "UPSTREAM_FIX" (some "2.0.7")).advisory_id).length = 1 :=
  C3_scd2_idempotence [] (sampleAdvisoryState "fixed" "high" "UPSTREAM_FIX" (some "2.0.7"))
    "run-1" "run-2" 10 20 (by simp)

end Hush
